import Mathlib

/-!
Verification of the geofencing and live-location core of the Bad Belzig
Geo-Quiz application (source: `src/components/Map.tsx`, quiz data:
`src/data/quizzes.ts`).

The numeric code is embedded over the real numbers: JavaScript `Math.sin`,
`Math.cos`, `Math.sqrt`, `Math.atan2` become the corresponding real
functions, so the theorems below are statements of the idealized
real-arithmetic behaviour of the source formulas (exact identities in this
model, hence well within any floating-point tolerance quoted by the design
document).

The React component state is embedded as an explicit state machine: the
pieces of component state (`userLocation`, `mapCenter`, `currentZoom`,
`locationError`, `watchIdRef`) form a record, the set of live watch
subscriptions of the geolocation platform is carried alongside, and each event
handler of the source becomes a transition function.
-/

open Real

/-- Real-number model of JavaScript `Math.atan2 y x`
(signed-zero distinctions collapse in the real model). -/
noncomputable def atan2 (y x : ℝ) : ℝ :=
  if 0 < x then Real.arctan (y / x)
  else if x < 0 then
    (if 0 ≤ y then Real.arctan (y / x) + Real.pi else Real.arctan (y / x) - Real.pi)
  else if 0 < y then Real.pi / 2
  else if y < 0 then -(Real.pi / 2)
  else 0

/-- Function `calculateDistance` from `src/components/Map.tsx` lines 32-45:
haversine distance in meters with Earth radius `6371e3`, computed with the
`atan2` form exactly as in the source. -/
noncomputable def calculateDistance (lat1 lon1 lat2 lon2 : ℝ) : ℝ :=
  let R : ℝ := 6371e3
  let φ1 := lat1 * Real.pi / 180
  let φ2 := lat2 * Real.pi / 180
  let Δφ := (lat2 - lat1) * Real.pi / 180
  let Δlon := (lon2 - lon1) * Real.pi / 180
  let a :=
    Real.sin (Δφ / 2) * Real.sin (Δφ / 2) +
      Real.cos φ1 * Real.cos φ2 * Real.sin (Δlon / 2) * Real.sin (Δlon / 2)
  let c := 2 * atan2 (Real.sqrt a) (Real.sqrt (1 - a))
  R * c

/-- The haversine term `sin²(Δφ/2) + cos φ1 · cos φ2 · sin²(Δλ/2)`. -/
noncomputable def havTerm (lat1 lon1 lat2 lon2 : ℝ) : ℝ :=
  Real.sin ((lat2 - lat1) * Real.pi / 180 / 2) ^ 2 +
    Real.cos (lat1 * Real.pi / 180) * Real.cos (lat2 * Real.pi / 180) *
      Real.sin ((lon2 - lon1) * Real.pi / 180 / 2) ^ 2

/-- Spec-side distance, written from the wording of the spec (section 4.1:
"haversine formula with a fixed Earth radius of 6,371,000 meters"), in the
textbook `2·R·arcsin √h` form, to be compared with the `atan2`-form
`calculateDistance` of the source. -/
noncomputable def haversineSpec (lat1 lon1 lat2 lon2 : ℝ) : ℝ :=
  2 * 6371000 * Real.arcsin (Real.sqrt (havTerm lat1 lon1 lat2 lon2))

lemma atan2_sqrt (x : ℝ) :
    atan2 (Real.sqrt x) (Real.sqrt (1 - x)) = Real.arcsin (Real.sqrt x) := by
  rcases le_or_lt x 0 with hx | hx
  · have h0 : Real.sqrt x = 0 := Real.sqrt_eq_zero_of_nonpos hx
    have hpos : 0 < Real.sqrt (1 - x) := Real.sqrt_pos.2 (by linarith)
    rw [h0, atan2, if_pos hpos]
    simp
  · rcases lt_or_le x 1 with hx1 | hx1
    · have hpos : 0 < Real.sqrt (1 - x) := Real.sqrt_pos.2 (by linarith)
      have hmem : Real.sqrt x ∈ Set.Ioo (-(1 : ℝ)) 1 := by
        constructor
        · linarith [Real.sqrt_nonneg x]
        · exact (Real.sqrt_lt' one_pos).2 (by linarith)
      rw [atan2, if_pos hpos, Real.arcsin_eq_arctan hmem, Real.sq_sqrt hx.le]
    · have h0 : Real.sqrt (1 - x) = 0 := Real.sqrt_eq_zero_of_nonpos (by linarith)
      have hypos : 0 < Real.sqrt x := Real.sqrt_pos.2 (by linarith)
      have hone : 1 ≤ Real.sqrt x := by
        have := Real.sqrt_le_sqrt hx1
        simpa [Real.sqrt_one] using this
      rw [atan2, h0, if_neg (lt_irrefl 0), if_neg (lt_irrefl 0), if_pos hypos,
        Real.arcsin_of_one_le hone]

/-- The `atan2`-form haversine of the source equals the `arcsin`-form
haversine of the spec, for all real inputs. -/
lemma calculateDistance_eq_haversineSpec (lat1 lon1 lat2 lon2 : ℝ) :
    calculateDistance lat1 lon1 lat2 lon2 = haversineSpec lat1 lon1 lat2 lon2 := by
  have hA :
      Real.sin ((lat2 - lat1) * Real.pi / 180 / 2) *
            Real.sin ((lat2 - lat1) * Real.pi / 180 / 2) +
          Real.cos (lat1 * Real.pi / 180) * Real.cos (lat2 * Real.pi / 180) *
              Real.sin ((lon2 - lon1) * Real.pi / 180 / 2) *
            Real.sin ((lon2 - lon1) * Real.pi / 180 / 2) =
        havTerm lat1 lon1 lat2 lon2 := by
    rw [havTerm]; ring
  simp only [calculateDistance, haversineSpec]
  rw [hA, atan2_sqrt]
  norm_num
  ring

lemma havTerm_symm (lat1 lon1 lat2 lon2 : ℝ) :
    havTerm lat1 lon1 lat2 lon2 = havTerm lat2 lon2 lat1 lon1 := by
  have h1 : (lat1 - lat2) * Real.pi / 180 / 2 = -((lat2 - lat1) * Real.pi / 180 / 2) := by
    ring
  have h2 : (lon1 - lon2) * Real.pi / 180 / 2 = -((lon2 - lon1) * Real.pi / 180 / 2) := by
    ring
  rw [havTerm, havTerm, h1, h2, Real.sin_neg, Real.sin_neg]
  ring

lemma havTerm_self (lat lon : ℝ) : havTerm lat lon lat lon = 0 := by
  rw [havTerm]
  simp

/-- C8: the haversine distance of the source is symmetric and vanishes on
equal inputs — exactly, in the real-number model, hence in particular
within the 1e-6 m tolerance quoted by the spec. -/
theorem distance_symm_and_zero :
    (∀ lat1 lon1 lat2 lon2 : ℝ,
      calculateDistance lat1 lon1 lat2 lon2 = calculateDistance lat2 lon2 lat1 lon1) ∧
    (∀ lat lon : ℝ, calculateDistance lat lon lat lon = 0) := by
  constructor
  · intro lat1 lon1 lat2 lon2
    rw [calculateDistance_eq_haversineSpec, calculateDistance_eq_haversineSpec,
      haversineSpec, haversineSpec, havTerm_symm]
  · intro lat lon
    rw [calculateDistance_eq_haversineSpec, haversineSpec, havTerm_self]
    simp

/-! ## Data model: coordinates and POIs -/

/-- A geographic coordinate in degrees (spec section 3, `GeoCoordinate`). -/
structure GeoCoordinate where
  latitude : ℝ
  longitude : ℝ

/-- The fields of a POI used by `Map.tsx` (id, `coordinates`,
`geofenceRadius`; the per-language display text is irrelevant to the
geofence logic). -/
structure POI where
  id : String
  coordinates : GeoCoordinate
  geofenceRadius : ℝ

/-- Predicate `isWithinGeofence` from `Map.tsx` lines 135-145: with no user location
(`null`) the result is `false`; otherwise compare
`calculateDistance(userLocation, poi.coordinates)` against
`poi.geofenceRadius` with `<=`. -/
noncomputable def isWithinGeofence (userLocation : Option GeoCoordinate) (poi : POI) : Prop :=
  match userLocation with
  | none => False
  | some u =>
      calculateDistance u.latitude u.longitude
          poi.coordinates.latitude poi.coordinates.longitude ≤
        poi.geofenceRadius

/-- C1: the geofence evaluation marks a POI as in range iff the haversine
distance (Earth radius 6,371,000 m, spec-side `arcsin` form) from the fix
to the POI is at most `geofenceRadius` (inclusive), and with no position
fix every POI is out of range. -/
theorem geofence_iff_haversine :
    (∀ poi : POI, ¬ isWithinGeofence none poi) ∧
    (∀ (u : GeoCoordinate) (poi : POI),
      isWithinGeofence (some u) poi ↔
        haversineSpec u.latitude u.longitude
            poi.coordinates.latitude poi.coordinates.longitude ≤
          poi.geofenceRadius) := by
  constructor
  · intro poi h
    exact h
  · intro u poi
    show calculateDistance _ _ _ _ ≤ _ ↔ _
    rw [calculateDistance_eq_haversineSpec]

/-! ## Location tracker and view-state reconciler as a state machine -/

/-- The two-value locale switch of the component (en or de). -/
inductive Lang where
  | en : Lang
  | de : Lang
deriving DecidableEq

/-- The `LocationError` classification (spec section 3). -/
inductive LocationErrorKind where
  | permissionDenied : LocationErrorKind
  | positionUnavailable : LocationErrorKind
  | timeout : LocationErrorKind
  | unknown : LocationErrorKind
deriving DecidableEq

/-- Classification of the platform error code `GeolocationPositionError.code`
performed by the `switch` in `handleError` (`Map.tsx` lines 94-112):
`PERMISSION_DENIED = 1`, `POSITION_UNAVAILABLE = 2`, `TIMEOUT = 3`,
anything else falls to the `default` branch. -/
def classifyError (code : ℕ) : LocationErrorKind :=
  match code with
  | 1 => LocationErrorKind.permissionDenied
  | 2 => LocationErrorKind.positionUnavailable
  | 3 => LocationErrorKind.timeout
  | _ => LocationErrorKind.unknown

/-- The localized message string assigned by each branch of the `switch`
in `handleError`, verbatim from the source. -/
def errorMessage (language : Lang) (k : LocationErrorKind) : String :=
  match k, language with
  | LocationErrorKind.permissionDenied, Lang.en => "Location permission denied."
  | LocationErrorKind.permissionDenied, Lang.de => "Standortberechtigung verweigert."
  | LocationErrorKind.positionUnavailable, Lang.en => "Location information unavailable."
  | LocationErrorKind.positionUnavailable, Lang.de => "Standortinformationen nicht verfügbar."
  | LocationErrorKind.timeout, Lang.en => "Location request timed out."
  | LocationErrorKind.timeout, Lang.de => "Standortanfrage Zeitüberschreitung."
  | LocationErrorKind.unknown, Lang.en => "An unknown error occurred."
  | LocationErrorKind.unknown, Lang.de => "Ein unbekannter Fehler ist aufgetreten."

/-- The component state of `MapComponent` (`Map.tsx` lines 69-73):
`userLocation`, `mapCenter`, `currentZoom`, `locationError`, plus the
`watchIdRef` ref cell. -/
structure MapState where
  userLocation : Option GeoCoordinate
  mapCenter : GeoCoordinate
  currentZoom : ℕ
  locationError : Option String
  watchId : Option ℕ

/-- Initial component state (`Map.tsx` lines 69-73): no location, center
at the Bad Belzig Marktplatz fallback `[52.1394, 12.5928]`, zoom 14, no
error, `watchIdRef.current = null`. -/
noncomputable def initState : MapState :=
  { userLocation := none
    mapCenter := { latitude := 52.1394, longitude := 12.5928 }
    currentZoom := 14
    locationError := none
    watchId := none }

/-- Handler `handleSuccess` (`Map.tsx` lines 82-92): store the new location, then
re-center at zoom 15 only when `watchIdRef.current === null`, and finally
clear the error. -/
def handleSuccess (s : MapState) (coords : GeoCoordinate) : MapState :=
  let s1 := { s with userLocation := some coords }
  let s2 :=
    if s1.watchId = none then { s1 with mapCenter := coords, currentZoom := 15 } else s1
  { s2 with locationError := none }

/-- Handler `handleError` (`Map.tsx` lines 94-112): set the localized message for
the classified code; nothing else changes and tracking continues. -/
def handleError (language : Lang) (s : MapState) (code : ℕ) : MapState :=
  { s with locationError := some (errorMessage language (classifyError code)) }

/-- Action `recenterMap` (`Map.tsx` lines 148-156): if a user location is known,
center on it at zoom 15; otherwise only warn — state unchanged. -/
def recenterMap (s : MapState) : MapState :=
  match s.userLocation with
  | some loc => { s with mapCenter := loc, currentZoom := 15 }
  | none => s

/-- Handler `onMoveEnd` (`Map.tsx` lines 175-179): manual navigation
copies the resulting center of the surface into state; the zoom update is commented out in
the source, so only the center changes. -/
def onMoveEnd (s : MapState) (c : GeoCoordinate) : MapState :=
  { s with mapCenter := c }

/-- Disabled condition of the recenter button, true when `userLocation`
is null (`Map.tsx` line 245). -/
def recenterDisabled (s : MapState) : Prop :=
  s.userLocation = none

/-- Component state together with the set of live watch subscriptions of
the geolocation platform (ids registered by `watchPosition` and not yet
removed by `clearWatch`). -/
structure World where
  ms : MapState
  active : List ℕ

/-- The initial world: initial component state, no live subscription. -/
noncomputable def initWorld : World :=
  { ms := initState, active := [] }

/-- Events of the embedded system. `start id` is the synchronous body of
the geolocation effect (`Map.tsx` lines 114-123): `watchPosition`
registers the callbacks under `id` and its return value is immediately
assigned to `watchIdRef.current` — both in the same synchronous task, so
no callback can run in between. `stop` is the effect cleanup (lines
126-131). `fix`/`geoError` are asynchronous callback deliveries from the
platform, which only reach the handlers while the subscription `id` is
still registered. `recenter` is the button click, `moveEnd` the manual
navigation event. -/
inductive Event where
  | start : ℕ → Event
  | stop : Event
  | fix : ℕ → GeoCoordinate → Event
  | geoError : ℕ → ℕ → Event
  | recenter : Event
  | moveEnd : GeoCoordinate → Event

/-- One transition of the embedded system. -/
def step (language : Lang) (w : World) (e : Event) : World :=
  match e with
  | Event.start id =>
      { w with ms := { w.ms with watchId := some id }, active := id :: w.active }
  | Event.stop =>
      match w.ms.watchId with
      | some id =>
          { w with ms := { w.ms with watchId := none }, active := w.active.erase id }
      | none => w
  | Event.fix id coords =>
      if id ∈ w.active then { w with ms := handleSuccess w.ms coords } else w
  | Event.geoError id code =>
      if id ∈ w.active then { w with ms := handleError language w.ms code } else w
  | Event.recenter => { w with ms := recenterMap w.ms }
  | Event.moveEnd c => { w with ms := onMoveEnd w.ms c }

/-- Run a sequence of events from a world. -/
def runFrom (language : Lang) (w : World) (es : List Event) : World :=
  es.foldl (step language) w

lemma runFrom_cons (language : Lang) (w : World) (e : Event) (es : List Event) :
    runFrom language w (e :: es) = runFrom language (step language w e) es := rfl

lemma handleSuccess_userLocation (s : MapState) (c : GeoCoordinate) :
    (handleSuccess s c).userLocation = some c := by
  simp only [handleSuccess]
  split <;> rfl

lemma handleSuccess_locationError (s : MapState) (c : GeoCoordinate) :
    (handleSuccess s c).locationError = none := rfl

lemma handleSuccess_watchId (s : MapState) (c : GeoCoordinate) :
    (handleSuccess s c).watchId = s.watchId := by
  simp only [handleSuccess]
  split <;> rfl

lemma handleSuccess_center_of_watching (s : MapState) (c : GeoCoordinate)
    (h : s.watchId ≠ none) :
    (handleSuccess s c).mapCenter = s.mapCenter ∧
      (handleSuccess s c).currentZoom = s.currentZoom := by
  simp only [handleSuccess]
  rw [if_neg h]
  exact ⟨rfl, rfl⟩

/-- C10: before any fix, navigation or recenter, the view state is the
fixed fallback center (52.1394, 12.5928) at zoom 14, strictly below the
zoom 15 used by first-fix and recenter, with no user location and no
error. -/
theorem initial_view_state :
    initState.mapCenter = { latitude := 52.1394, longitude := 12.5928 } ∧
    initState.currentZoom = 14 ∧
    initState.currentZoom < 15 ∧
    initState.userLocation = none ∧
    initState.locationError = none :=
  ⟨rfl, rfl, by decide, rfl, rfl⟩

/-- C2 (code bug in the source): the return value of `watchPosition` is
assigned to `watchIdRef.current` in the same synchronous task that starts
the subscription, before any asynchronous callback can run, so the
first-fix test `watchIdRef.current === null` of `handleSuccess` is never
true for a delivered fix: the very first fix after `start` stores the
location but leaves the view at the fallback center (52.1394, 12.5928)
and zoom 14 instead of re-centering at zoom 15. -/
theorem first_fix_never_recenters :
    (runFrom Lang.en initWorld
        [Event.start 1, Event.fix 1 { latitude := 52.15, longitude := 12.6 }]).ms.userLocation =
      some { latitude := 52.15, longitude := 12.6 } ∧
    (runFrom Lang.en initWorld
        [Event.start 1, Event.fix 1 { latitude := 52.15, longitude := 12.6 }]).ms.mapCenter =
      { latitude := 52.1394, longitude := 12.5928 } ∧
    (runFrom Lang.en initWorld
        [Event.start 1, Event.fix 1 { latitude := 52.15, longitude := 12.6 }]).ms.currentZoom =
      14 :=
  ⟨rfl, rfl, rfl⟩

/-- C5: a fix delivered while the subscription handle is set — which in
this code is the case for every delivered fix, in particular every fix
after the first of a session — updates only the latest position and clears
the error; the view center and zoom are unchanged. -/
theorem later_fix_preserves_view (language : Lang) (w : World) (id : ℕ)
    (u : GeoCoordinate) (h : w.ms.watchId ≠ none) :
    (step language w (Event.fix id u)).ms.mapCenter = w.ms.mapCenter ∧
    (step language w (Event.fix id u)).ms.currentZoom = w.ms.currentZoom ∧
    (id ∈ w.active →
      (step language w (Event.fix id u)).ms.userLocation = some u ∧
      (step language w (Event.fix id u)).ms.locationError = none) := by
  by_cases hid : id ∈ w.active
  · have hc := handleSuccess_center_of_watching w.ms u h
    have h1 : step language w (Event.fix id u) = { w with ms := handleSuccess w.ms u } := by
      simp [step, hid]
    rw [h1]
    exact ⟨hc.1, hc.2, fun _ => ⟨handleSuccess_userLocation w.ms u, rfl⟩⟩
  · have h1 : step language w (Event.fix id u) = w := by
      simp [step, hid]
    rw [h1]
    exact ⟨rfl, rfl, fun hmem => absurd hmem hid⟩

/-- C4: the manual navigation handler copies the center reported by the surface
into the view state exactly, and no event other than a recenter or a
manual navigation overwrites the center (fix deliveries, error
deliveries, start and stop all preserve it while a subscription handle is
set). -/
theorem manual_nav_center_authoritative (language : Lang) :
    (∀ (w : World) (c : GeoCoordinate),
      (step language w (Event.moveEnd c)).ms.mapCenter = c) ∧
    (∀ (w : World) (e : Event), w.ms.watchId ≠ none →
      e ≠ Event.recenter → (∀ c, e ≠ Event.moveEnd c) →
      (step language w e).ms.mapCenter = w.ms.mapCenter) := by
  constructor
  · intro w c
    rfl
  · intro w e hw hr hm
    cases e with
    | start id => rfl
    | stop =>
      cases hws : w.ms.watchId with
      | some id => simp [step, hws]
      | none => simp [step, hws]
    | fix id u =>
      by_cases hid : id ∈ w.active
      · have h1 : step language w (Event.fix id u) = { w with ms := handleSuccess w.ms u } := by
          simp [step, hid]
        rw [h1]
        exact (handleSuccess_center_of_watching w.ms u hw).1
      · simp [step, hid]
    | geoError id code =>
      by_cases hid : id ∈ w.active
      · simp [step, hid, handleError]
      · simp [step, hid]
    | recenter => exact absurd rfl hr
    | moveEnd c => exact absurd rfl (hm c)

/-- C3: the effect cleanup clears the watch via `clearWatch` before
nulling the ref, and the platform never invokes callbacks of a cleared
subscription; so after stopping, a late success callback from the old
subscription changes nothing: the whole state, in particular the stored
user location, and with it the in-range status of every POI, is untouched. -/
theorem stale_fix_after_stop_noop (language : Lang) (w : World) (id : ℕ)
    (v : GeoCoordinate) (hw : w.ms.watchId = some id) (ha : w.active = [id]) :
    step language (step language w Event.stop) (Event.fix id v) =
      step language w Event.stop ∧
    (step language (step language w Event.stop) (Event.fix id v)).ms.userLocation =
      (step language w Event.stop).ms.userLocation ∧
    ∀ poi : POI,
      (isWithinGeofence
          (step language (step language w Event.stop) (Event.fix id v)).ms.userLocation poi ↔
        isWithinGeofence (step language w Event.stop).ms.userLocation poi) := by
  have h1 : step language w Event.stop =
      { w with ms := { w.ms with watchId := none }, active := [] } := by
    simp [step, hw, ha]
  have h2 : step language (step language w Event.stop) (Event.fix id v) =
      step language w Event.stop := by
    rw [h1]
    simp [step]
  exact ⟨h2, by rw [h2], fun poi => by rw [h2]⟩

/-- A sample fix coordinate, shared by the concrete instantiations
below. -/
noncomputable def demoCoord : GeoCoordinate :=
  { latitude := 52.15, longitude := 12.6 }

/-- A sample mid-session world: subscription 1 live, no fix yet. -/
noncomputable def demoWorld : World :=
  { ms :=
      { userLocation := none
        mapCenter := { latitude := 52.1394, longitude := 12.5928 }
        currentZoom := 14
        locationError := none
        watchId := some 1 }
    active := [1] }

/-- A sample mid-session world with a known last position. -/
noncomputable def demoWorldLoc : World :=
  { ms :=
      { userLocation := some demoCoord
        mapCenter := { latitude := 52.1394, longitude := 12.5928 }
        currentZoom := 14
        locationError := none
        watchId := some 1 }
    active := [1] }

/-- Concrete instantiation of `later_fix_preserves_view`. -/
theorem later_fix_preserves_view_witness :
    (step Lang.en demoWorld (Event.fix 1 demoCoord)).ms.mapCenter =
      demoWorld.ms.mapCenter ∧
    (step Lang.en demoWorld (Event.fix 1 demoCoord)).ms.currentZoom =
      demoWorld.ms.currentZoom ∧
    (1 ∈ demoWorld.active →
      (step Lang.en demoWorld (Event.fix 1 demoCoord)).ms.userLocation = some demoCoord ∧
      (step Lang.en demoWorld (Event.fix 1 demoCoord)).ms.locationError = none) :=
  later_fix_preserves_view Lang.en demoWorld 1 demoCoord (by simp [demoWorld])

/-- Concrete instantiation of `manual_nav_center_authoritative`. -/
theorem manual_nav_center_authoritative_witness :
    (step Lang.en demoWorld (Event.moveEnd demoCoord)).ms.mapCenter = demoCoord ∧
    (step Lang.en demoWorld (Event.geoError 1 2)).ms.mapCenter =
      demoWorld.ms.mapCenter :=
  ⟨(manual_nav_center_authoritative Lang.en).1 demoWorld demoCoord,
    (manual_nav_center_authoritative Lang.en).2 demoWorld (Event.geoError 1 2)
      (by simp [demoWorld]) (by simp) (fun c => by simp)⟩

/-- Concrete instantiation of `stale_fix_after_stop_noop`. -/
theorem stale_fix_after_stop_noop_witness :
    step Lang.en (step Lang.en demoWorldLoc Event.stop) (Event.fix 1 demoCoord) =
      step Lang.en demoWorldLoc Event.stop ∧
    (step Lang.en (step Lang.en demoWorldLoc Event.stop)
        (Event.fix 1 demoCoord)).ms.userLocation =
      (step Lang.en demoWorldLoc Event.stop).ms.userLocation ∧
    ∀ poi : POI,
      (isWithinGeofence
          (step Lang.en (step Lang.en demoWorldLoc Event.stop)
              (Event.fix 1 demoCoord)).ms.userLocation poi ↔
        isWithinGeofence (step Lang.en demoWorldLoc Event.stop).ms.userLocation poi) :=
  stale_fix_after_stop_noop Lang.en demoWorldLoc 1 demoCoord rfl rfl

/-- C7: the `switch` maps the platform codes 1, 2, 3 to permission-denied,
position-unavailable and timeout, any other code to the unknown fallback;
the error state is a single optional message (at most one active), set by
`handleError` to the message of the classified code and cleared to `none`
by every successful fix. -/
theorem error_classification (language : Lang) :
    classifyError 1 = LocationErrorKind.permissionDenied ∧
    classifyError 2 = LocationErrorKind.positionUnavailable ∧
    classifyError 3 = LocationErrorKind.timeout ∧
    (∀ code : ℕ, code ≠ 1 → code ≠ 2 → code ≠ 3 →
      classifyError code = LocationErrorKind.unknown) ∧
    (∀ (s : MapState) (code : ℕ),
      (handleError language s code).locationError =
        some (errorMessage language (classifyError code))) ∧
    (∀ (s : MapState) (u : GeoCoordinate),
      (handleSuccess s u).locationError = none) := by
  refine ⟨rfl, rfl, rfl, ?_, fun s code => rfl, fun s u => rfl⟩
  intro code h1 h2 h3
  match code with
  | 0 => rfl
  | 1 => exact absurd rfl h1
  | 2 => exact absurd rfl h2
  | 3 => exact absurd rfl h3
  | (n + 4) => rfl

/-- Concrete instantiation of `error_classification`. -/
theorem error_classification_witness :
    classifyError 4 = LocationErrorKind.unknown :=
  (error_classification Lang.en).2.2.2.1 4 (by decide) (by decide) (by decide)

/-- A fix was delivered somewhere along the trace: the event is a `fix`
whose subscription id is live at that moment. -/
def fixDelivered (language : Lang) : World → List Event → Prop
  | _, [] => False
  | w, Event.fix id u :: es =>
      id ∈ w.active ∨ fixDelivered language (step language w (Event.fix id u)) es
  | w, e :: es => fixDelivered language (step language w e) es

lemma userLocation_stays_some (language : Lang) :
    ∀ (es : List Event) (w : World), w.ms.userLocation ≠ none →
      (runFrom language w es).ms.userLocation ≠ none := by
  intro es
  induction es with
  | nil => exact fun w h => h
  | cons e es ih =>
    intro w h
    rw [runFrom_cons]
    apply ih
    cases e with
    | start id => exact h
    | stop =>
      cases hws : w.ms.watchId with
      | some id => simpa [step, hws] using h
      | none => simpa [step, hws] using h
    | fix id u =>
      by_cases hid : id ∈ w.active
      · simp [step, hid, handleSuccess_userLocation]
      · simpa [step, hid] using h
    | geoError id code =>
      by_cases hid : id ∈ w.active
      · simpa [step, hid, handleError] using h
      · simpa [step, hid] using h
    | recenter =>
      cases hul : w.ms.userLocation with
      | some loc => simp [step, recenterMap, hul]
      | none => exact absurd hul h
    | moveEnd c => simpa [step, onMoveEnd] using h

lemma userLocation_none_iff (language : Lang) :
    ∀ (es : List Event) (w : World), w.ms.userLocation = none →
      ((runFrom language w es).ms.userLocation = none ↔
        ¬ fixDelivered language w es) := by
  intro es
  induction es with
  | nil =>
    intro w h
    simp [runFrom, fixDelivered, h]
  | cons e es ih =>
    intro w h
    rw [runFrom_cons]
    cases e with
    | start id =>
      rw [show fixDelivered language w (Event.start id :: es) =
          fixDelivered language (step language w (Event.start id)) es from rfl]
      exact ih _ (by simpa [step] using h)
    | stop =>
      rw [show fixDelivered language w (Event.stop :: es) =
          fixDelivered language (step language w Event.stop) es from rfl]
      cases hws : w.ms.watchId with
      | some id => exact ih _ (by simpa [step, hws] using h)
      | none => exact ih _ (by simpa [step, hws] using h)
    | fix id u =>
      by_cases hid : id ∈ w.active
      · have hstep : (step language w (Event.fix id u)).ms.userLocation ≠ none := by
          simp [step, hid, handleSuccess_userLocation]
        have hrun := userLocation_stays_some language es _ hstep
        constructor
        · intro hc
          exact absurd hc hrun
        · intro hc
          exact absurd (Or.inl hid) hc
      · have hstep : step language w (Event.fix id u) = w := by
          simp [step, hid]
        rw [show fixDelivered language w (Event.fix id u :: es) =
            (id ∈ w.active ∨
              fixDelivered language (step language w (Event.fix id u)) es) from rfl]
        rw [hstep]
        simp only [hid, false_or]
        exact ih w h
    | geoError id code =>
      rw [show fixDelivered language w (Event.geoError id code :: es) =
          fixDelivered language (step language w (Event.geoError id code)) es from rfl]
      by_cases hid : id ∈ w.active
      · exact ih _ (by simpa [step, hid, handleError] using h)
      · exact ih _ (by simpa [step, hid] using h)
    | recenter =>
      rw [show fixDelivered language w (Event.recenter :: es) =
          fixDelivered language (step language w Event.recenter) es from rfl]
      exact ih _ (by simp [step, recenterMap, h])
    | moveEnd c =>
      rw [show fixDelivered language w (Event.moveEnd c :: es) =
          fixDelivered language (step language w (Event.moveEnd c)) es from rfl]
      exact ih _ (by simpa [step, onMoveEnd] using h)

/-- C6: with a known last position the recenter action sets the center to
it and the zoom to 15; with no position it is a no-op; and the recenter
disabled state of the recenter control holds exactly when no fix has ever
been delivered since the start of the session. -/
theorem recenter_behavior (language : Lang) :
    (∀ (w : World) (loc : GeoCoordinate), w.ms.userLocation = some loc →
      (step language w Event.recenter).ms.mapCenter = loc ∧
      (step language w Event.recenter).ms.currentZoom = 15 ∧
      (step language w Event.recenter).ms.userLocation = w.ms.userLocation ∧
      (step language w Event.recenter).ms.locationError = w.ms.locationError) ∧
    (∀ w : World, w.ms.userLocation = none →
      step language w Event.recenter = w) ∧
    (∀ es : List Event,
      recenterDisabled (runFrom language initWorld es).ms ↔
        ¬ fixDelivered language initWorld es) := by
  refine ⟨?_, ?_, ?_⟩
  · intro w loc h
    simp [step, recenterMap, h]
  · intro w h
    simp [step, recenterMap, h]
  · intro es
    exact userLocation_none_iff language es initWorld rfl

/-- Concrete instantiation of `recenter_behavior`. -/
theorem recenter_behavior_witness :
    (step Lang.en demoWorldLoc Event.recenter).ms.mapCenter = demoCoord ∧
    (step Lang.en demoWorldLoc Event.recenter).ms.currentZoom = 15 ∧
    step Lang.en demoWorld Event.recenter = demoWorld ∧
    (recenterDisabled (runFrom Lang.en initWorld [Event.start 1]).ms ↔
      ¬ fixDelivered Lang.en initWorld [Event.start 1]) :=
  ⟨((recenter_behavior Lang.en).1 demoWorldLoc demoCoord rfl).1,
    ((recenter_behavior Lang.en).1 demoWorldLoc demoCoord rfl).2.1,
    (recenter_behavior Lang.en).2.1 demoWorld rfl,
    (recenter_behavior Lang.en).2.2 [Event.start 1]⟩

/-! ## Static quiz content (`src/data/quizzes.ts`) -/

/-- Text localized into English and German. -/
structure LocalizedText where
  en : String
  de : String
deriving DecidableEq

/-- Answer options localized into English and German. -/
structure LocalizedOptions where
  en : List String
  de : List String
deriving DecidableEq

/-- One quiz question: localized prompt, localized options, zero-based
index of the correct option. -/
structure Question where
  id : String
  questions : LocalizedText
  options : LocalizedOptions
  correctOptionIndex : ℕ
deriving DecidableEq

/-- A quiz: an ordered sequence of questions keyed by POI id. -/
structure Quiz where
  id : String
  poiId : String
  questions : List Question
deriving DecidableEq

/-- The static quiz data of `src/data/quizzes.ts`, verbatim. The packaged
copy of that file is cut off in the middle of question
`heimatmuseum-q3` (the text ends mid-object), so the embedding carries
every question whose record is fully present in the file: the five
questions of each of the six complete quizzes and the first two questions
of the `heimatmuseum` quiz. -/
def quizzes : List Quiz :=
  [
  { id := "quiz-burg-eisenhardt"
    poiId := "burg-eisenhardt"
    questions :=
      [
        { id := "burg-eisenhardt-q1"
          questions :=
            { en := "In which century was Burg Eisenhardt originally built?"
              de := "In welchem Jahrhundert wurde die Burg Eisenhardt ursprünglich erbaut?" }
          options :=
            { en :=
                ["10th century",
                 "12th century",
                 "14th century",
                 "16th century"]
              de :=
                ["10. Jahrhundert",
                 "12. Jahrhundert",
                 "14. Jahrhundert",
                 "16. Jahrhundert"] }
          correctOptionIndex := 1 },
        { id := "burg-eisenhardt-q2"
          questions :=
            { en := "What was the original purpose of Burg Eisenhardt?"
              de := "Was war der ursprüngliche Zweck der Burg Eisenhardt?" }
          options :=
            { en :=
                ["Royal residence",
                 "Military fortress",
                 "Religious monastery",
                 "Trading post"]
              de :=
                ["Königliche Residenz",
                 "Militärische Festung",
                 "Religiöses Kloster",
                 "Handelsposten"] }
          correctOptionIndex := 1 },
        { id := "burg-eisenhardt-q3"
          questions :=
            { en := "Which architectural style is predominantly featured in Burg Eisenhardt?"
              de := "Welcher architektonische Stil ist in der Burg Eisenhardt vorherrschend?" }
          options :=
            { en :=
                ["Baroque",
                 "Renaissance",
                 "Gothic",
                 "Romanesque"]
              de :=
                ["Barock",
                 "Renaissance",
                 "Gotik",
                 "Romanik"] }
          correctOptionIndex := 3 },
        { id := "burg-eisenhardt-q4"
          questions :=
            { en := "What is housed in the castle today?"
              de := "Was befindet sich heute in der Burg?" }
          options :=
            { en :=
                ["A hotel",
                 "A museum",
                 "Government offices",
                 "Private residences"]
              de :=
                ["Ein Hotel",
                 "Ein Museum",
                 "Regierungsbüros",
                 "Privatwohnungen"] }
          correctOptionIndex := 0 },
        { id := "burg-eisenhardt-q5"
          questions :=
            { en := "What is the name of the chapel located on the castle grounds?"
              de := "Wie heißt die Kapelle auf dem Burggelände?" }
          options :=
            { en :=
                ["St. Peter Chapel",
                 "Briccius Chapel",
                 "Maria Chapel",
                 "Castle Chapel"]
              de :=
                ["St. Peter Kapelle",
                 "Bricciuskapelle",
                 "Marienkapelle",
                 "Burgkapelle"] }
          correctOptionIndex := 1 }] },
  { id := "quiz-steintherme"
    poiId := "steintherme"
    questions :=
      [
        { id := "steintherme-q1"
          questions :=
            { en := "What is the main attraction of SteinTherme?"
              de := "Was ist die Hauptattraktion der SteinTherme?" }
          options :=
            { en :=
                ["Natural thermal water",
                 "Water slides",
                 "Olympic swimming pool",
                 "Artificial wave pool"]
              de :=
                ["Natürliches Thermalwasser",
                 "Wasserrutschen",
                 "Olympisches Schwimmbecken",
                 "Künstliches Wellenbecken"] }
          correctOptionIndex := 0 },
        { id := "steintherme-q2"
          questions :=
            { en := "When was SteinTherme first opened to the public?"
              de := "Wann wurde die SteinTherme erstmals für die Öffentlichkeit geöffnet?" }
          options :=
            { en :=
                ["1994",
                 "2002",
                 "2008",
                 "2015"]
              de :=
                ["1994",
                 "2002",
                 "2008",
                 "2015"] }
          correctOptionIndex := 1 },
        { id := "steintherme-q3"
          questions :=
            { en := "What health benefit is the thermal water known for?"
              de := "Für welchen gesundheitlichen Nutzen ist das Thermalwasser bekannt?" }
          options :=
            { en :=
                ["Improving skin conditions",
                 "Curing common colds",
                 "Enhancing eyesight",
                 "Preventing hair loss"]
              de :=
                ["Verbesserung von Hautkrankheiten",
                 "Heilung von Erkältungen",
                 "Verbesserung der Sehkraft",
                 "Vorbeugung von Haarausfall"] }
          correctOptionIndex := 0 },
        { id := "steintherme-q4"
          questions :=
            { en := "What is the approximate temperature of the thermal water?"
              de := "Wie hoch ist die ungefähre Temperatur des Thermalwassers?" }
          options :=
            { en :=
                ["25°C",
                 "32°C",
                 "38°C",
                 "45°C"]
              de :=
                ["25°C",
                 "32°C",
                 "38°C",
                 "45°C"] }
          correctOptionIndex := 2 },
        { id := "steintherme-q5"
          questions :=
            { en := "Which special facility is NOT available at SteinTherme?"
              de := "Welche besondere Einrichtung ist in der SteinTherme NICHT verfügbar?" }
          options :=
            { en :=
                ["Sauna area",
                 "Massage service",
                 "Ice skating rink",
                 "Wellness treatments"]
              de :=
                ["Saunabereich",
                 "Massageservice",
                 "Eislaufbahn",
                 "Wellnessbehandlungen"] }
          correctOptionIndex := 2 }] },
  { id := "quiz-marktplatz"
    poiId := "marktplatz"
    questions :=
      [
        { id := "marktplatz-q1"
          questions :=
            { en := "What traditional event is regularly held at the Marktplatz?"
              de := "Welche traditionelle Veranstaltung findet regelmäßig auf dem Marktplatz statt?" }
          options :=
            { en :=
                ["Weekly farmers market",
                 "Annual film festival",
                 "Summer music concerts",
                 "Winter ice skating"]
              de :=
                ["Wöchentlicher Bauernmarkt",
                 "Jährliches Filmfestival",
                 "Sommerliche Musikkonzerte",
                 "Winterliches Eislaufen"] }
          correctOptionIndex := 0 },
        { id := "marktplatz-q2"
          questions :=
            { en := "What is the distinctive feature of buildings around the Marktplatz?"
              de := "Was ist das charakteristische Merkmal der Gebäude rund um den Marktplatz?" }
          options :=
            { en :=
                ["Colorful facades",
                 "Thatched roofs",
                 "Glass fronts",
                 "Wooden balconies"]
              de :=
                ["Bunte Fassaden",
                 "Reetdächer",
                 "Glasfronten",
                 "Holzbalkone"] }
          correctOptionIndex := 0 },
        { id := "marktplatz-q3"
          questions :=
            { en := "Which important building is located at the Marktplatz?"
              de := "Welches wichtige Gebäude befindet sich am Marktplatz?" }
          options :=
            { en :=
                ["Town Hall",
                 "Main Library",
                 "Central Bank",
                 "Post Office"]
              de :=
                ["Rathaus",
                 "Hauptbibliothek",
                 "Zentralbank",
                 "Postamt"] }
          correctOptionIndex := 0 },
        { id := "marktplatz-q4"
          questions :=
            { en := "What historical event significantly shaped the current appearance of the Marktplatz?"
              de := "Welches historische Ereignis hat das heutige Erscheinungsbild des Marktplatzes maßgeblich geprägt?" }
          options :=
            { en :=
                ["The Great Fire of 1636",
                 "World War II bombing",
                 "Flood of 1845",
                 "Renovation in 1990s"]
              de :=
                ["Der Große Brand von 1636",
                 "Bombardierung im Zweiten Weltkrieg",
                 "Überschwemmung von 1845",
                 "Renovierung in den 1990er Jahren"] }
          correctOptionIndex := 0 },
        { id := "marktplatz-q5"
          questions :=
            { en := "What type of pavement covers the Marktplatz?"
              de := "Mit welcher Art von Pflaster ist der Marktplatz bedeckt?" }
          options :=
            { en :=
                ["Cobblestone",
                 "Asphalt",
                 "Brick",
                 "Concrete slabs"]
              de :=
                ["Kopfsteinpflaster",
                 "Asphalt",
                 "Ziegelstein",
                 "Betonplatten"] }
          correctOptionIndex := 0 }] },
  { id := "quiz-rathaus"
    poiId := "rathaus"
    questions :=
      [
        { id := "rathaus-q1"
          questions :=
            { en := "In which century was the Town Hall (Rathaus) built?"
              de := "In welchem Jahrhundert wurde das Rathaus erbaut?" }
          options :=
            { en :=
                ["15th century",
                 "16th century",
                 "17th century",
                 "18th century"]
              de :=
                ["15. Jahrhundert",
                 "16. Jahrhundert",
                 "17. Jahrhundert",
                 "18. Jahrhundert"] }
          correctOptionIndex := 1 },
        { id := "rathaus-q2"
          questions :=
            { en := "What architectural style is the Town Hall built in?"
              de := "In welchem architektonischen Stil wurde das Rathaus erbaut?" }
          options :=
            { en :=
                ["Gothic",
                 "Renaissance",
                 "Baroque",
                 "Neoclassical"]
              de :=
                ["Gotik",
                 "Renaissance",
                 "Barock",
                 "Neoklassizismus"] }
          correctOptionIndex := 1 },
        { id := "rathaus-q3"
          questions :=
            { en := "What color is the facade of the Town Hall?"
              de := "Welche Farbe hat die Fassade des Rathauses?" }
          options :=
            { en :=
                ["Red",
                 "Yellow",
                 "White",
                 "Blue"]
              de :=
                ["Rot",
                 "Gelb",
                 "Weiß",
                 "Blau"] }
          correctOptionIndex := 2 },
        { id := "rathaus-q4"
          questions :=
            { en := "What important civic function takes place in the Town Hall?"
              de := "Welche wichtige bürgerliche Funktion findet im Rathaus statt?" }
          options :=
            { en :=
                ["City council meetings",
                 "Theater performances",
                 "Art exhibitions",
                 "Religious services"]
              de :=
                ["Stadtratssitzungen",
                 "Theateraufführungen",
                 "Kunstausstellungen",
                 "Gottesdienste"] }
          correctOptionIndex := 0 },
        { id := "rathaus-q5"
          questions :=
            { en := "What decorative feature is on top of the Town Hall?"
              de := "Welches dekorative Element befindet sich auf dem Dach des Rathauses?" }
          options :=
            { en :=
                ["Clock tower",
                 "Weather vane",
                 "Bell tower",
                 "Statue"]
              de :=
                ["Uhrturm",
                 "Wetterfahne",
                 "Glockenturm",
                 "Statue"] }
          correctOptionIndex := 0 }] },
  { id := "quiz-st-marienkirche"
    poiId := "st-marienkirche"
    questions :=
      [
        { id := "st-marienkirche-q1"
          questions :=
            { en := "When was St. Mary\x27s Church (St. Marienkirche) built?"
              de := "Wann wurde die St. Marienkirche erbaut?" }
          options :=
            { en :=
                ["12th century",
                 "13th century",
                 "14th century",
                 "15th century"]
              de :=
                ["12. Jahrhundert",
                 "13. Jahrhundert",
                 "14. Jahrhundert",
                 "15. Jahrhundert"] }
          correctOptionIndex := 1 },
        { id := "st-marienkirche-q2"
          questions :=
            { en := "What is the main building material of St. Mary\x27s Church?"
              de := "Was ist das Hauptbaumaterial der St. Marienkirche?" }
          options :=
            { en :=
                ["Sandstone",
                 "Brick",
                 "Marble",
                 "Granite"]
              de :=
                ["Sandstein",
                 "Backstein",
                 "Marmor",
                 "Granit"] }
          correctOptionIndex := 1 },
        { id := "st-marienkirche-q3"
          questions :=
            { en := "What architectural style is St. Mary\x27s Church primarily built in?"
              de := "In welchem architektonischen Stil wurde die St. Marienkirche hauptsächlich erbaut?" }
          options :=
            { en :=
                ["Romanesque",
                 "Gothic",
                 "Baroque",
                 "Renaissance"]
              de :=
                ["Romanisch",
                 "Gotisch",
                 "Barock",
                 "Renaissance"] }
          correctOptionIndex := 1 },
        { id := "st-marienkirche-q4"
          questions :=
            { en := "What notable feature can be found inside St. Mary\x27s Church?"
              de := "Welches bemerkenswerte Merkmal findet man in der St. Marienkirche?" }
          options :=
            { en :=
                ["Medieval altar",
                 "Ancient crypt",
                 "Painted ceiling",
                 "Pipe organ"]
              de :=
                ["Mittelalterlicher Altar",
                 "Antike Krypta",
                 "Bemalte Decke",
                 "Pfeifenorgel"] }
          correctOptionIndex := 0 },
        { id := "st-marienkirche-q5"
          questions :=
            { en := "What religious denomination does St. Mary\x27s Church belong to?"
              de := "Welcher Konfession gehört die St. Marienkirche an?" }
          options :=
            { en :=
                ["Roman Catholic",
                 "Protestant Lutheran",
                 "Orthodox",
                 "Anglican"]
              de :=
                ["Römisch-Katholisch",
                 "Evangelisch-Lutherisch",
                 "Orthodox",
                 "Anglikanisch"] }
          correctOptionIndex := 1 }] },
  { id := "quiz-bricciuskapelle"
    poiId := "bricciuskapelle"
    questions :=
      [
        { id := "bricciuskapelle-q1"
          questions :=
            { en := "Who was Briccius, after whom the chapel is named?"
              de := "Wer war Briccius, nach dem die Kapelle benannt ist?" }
          options :=
            { en :=
                ["A local nobleman",
                 "A saint",
                 "The architect",
                 "A medieval mayor"]
              de :=
                ["Ein lokaler Adliger",
                 "Ein Heiliger",
                 "Der Architekt",
                 "Ein mittelalterlicher Bürgermeister"] }
          correctOptionIndex := 1 },
        { id := "bricciuskapelle-q2"
          questions :=
            { en := "In which century was the Briccius Chapel built?"
              de := "In welchem Jahrhundert wurde die Bricciuskapelle erbaut?" }
          options :=
            { en :=
                ["12th century",
                 "14th century",
                 "16th century",
                 "18th century"]
              de :=
                ["12. Jahrhundert",
                 "14. Jahrhundert",
                 "16. Jahrhundert",
                 "18. Jahrhundert"] }
          correctOptionIndex := 0 },
        { id := "bricciuskapelle-q3"
          questions :=
            { en := "What is the Briccius Chapel primarily used for today?"
              de := "Wofür wird die Bricciuskapelle heute hauptsächlich genutzt?" }
          options :=
            { en :=
                ["Regular church services",
                 "Weddings and baptisms",
                 "Museum",
                 "Tourist attraction"]
              de :=
                ["Regelmäßige Gottesdienste",
                 "Hochzeiten und Taufen",
                 "Museum",
                 "Touristenattraktion"] }
          correctOptionIndex := 1 },
        { id := "bricciuskapelle-q4"
          questions :=
            { en := "What architectural feature is characteristic of the Briccius Chapel?"
              de := "Welches architektonische Merkmal ist charakteristisch für die Bricciuskapelle?" }
          options :=
            { en :=
                ["Round arches",
                 "Pointed arches",
                 "Dome",
                 "Spire"]
              de :=
                ["Rundbögen",
                 "Spitzbögen",
                 "Kuppel",
                 "Turmspitze"] }
          correctOptionIndex := 0 },
        { id := "bricciuskapelle-q5"
          questions :=
            { en := "What historical event significantly damaged the Briccius Chapel?"
              de := "Welches historische Ereignis hat die Bricciuskapelle erheblich beschädigt?" }
          options :=
            { en :=
                ["Fire in 1636",
                 "Thirty Years\x27 War",
                 "World War II",
                 "Earthquake in 1755"]
              de :=
                ["Brand im Jahr 1636",
                 "Dreißigjähriger Krieg",
                 "Zweiter Weltkrieg",
                 "Erdbeben im Jahr 1755"] }
          correctOptionIndex := 1 }] },
  { id := "quiz-heimatmuseum"
    poiId := "heimatmuseum"
    questions :=
      [
        { id := "heimatmuseum-q1"
          questions :=
            { en := "Where is the Heimatmuseum (local history museum) located?"
              de := "Wo befindet sich das Heimatmuseum?" }
          options :=
            { en :=
                ["In the town hall",
                 "In the castle gatehouse",
                 "In a former school",
                 "In a medieval merchant house"]
              de :=
                ["Im Rathaus",
                 "Im Torhaus der Burg",
                 "In einer ehemaligen Schule",
                 "In einem mittelalterlichen Kaufmannshaus"] }
          correctOptionIndex := 1 },
        { id := "heimatmuseum-q2"
          questions :=
            { en := "When was the Heimatmuseum established?"
              de := "Wann wurde das Heimatmuseum gegründet?" }
          options :=
            { en :=
                ["1920s",
                 "1950s",
                 "1970s",
                 "1990s"]
              de :=
                ["1920er Jahre",
                 "1950er Jahre",
                 "1970er Jahre",
                 "1990er Jahre"] }
          correctOptionIndex := 2 }] }]
/-- C9: every question of the static quiz content has exactly four
options in each provided language (English and German), a nonempty prompt
in both languages, and a correct-option index that is a valid zero-based
index into the four options. -/
theorem quiz_content_wellformed :
    ∀ qz ∈ quizzes, ∀ q ∈ qz.questions,
      q.options.en.length = 4 ∧ q.options.de.length = 4 ∧
      q.questions.en ≠ "" ∧ q.questions.de ≠ "" ∧
      q.correctOptionIndex < 4 := by
  decide

/-- Concrete instantiation of `quiz_content_wellformed` at the first
question of the first quiz. -/
theorem quiz_content_wellformed_witness :
    ((quizzes.get ⟨0, by decide⟩).questions.get ⟨0, by decide⟩).options.en.length = 4 ∧
    ((quizzes.get ⟨0, by decide⟩).questions.get ⟨0, by decide⟩).options.de.length = 4 ∧
    ((quizzes.get ⟨0, by decide⟩).questions.get ⟨0, by decide⟩).questions.en ≠ "" ∧
    ((quizzes.get ⟨0, by decide⟩).questions.get ⟨0, by decide⟩).questions.de ≠ "" ∧
    ((quizzes.get ⟨0, by decide⟩).questions.get ⟨0, by decide⟩).correctOptionIndex < 4 :=
  quiz_content_wellformed (quizzes.get ⟨0, by decide⟩) (by decide)
    ((quizzes.get ⟨0, by decide⟩).questions.get ⟨0, by decide⟩) (by decide)

/-- A sample POI (the Marktplatz example of spec section 8). -/
noncomputable def demoPoi : POI :=
  { id := "marktplatz"
    coordinates := { latitude := 52.14, longitude := 12.593 }
    geofenceRadius := 50 }

/-- Concrete instantiation of `geofence_iff_haversine`. -/
theorem geofence_iff_haversine_witness :
    ¬ isWithinGeofence none demoPoi ∧
    (isWithinGeofence (some demoCoord) demoPoi ↔
      haversineSpec demoCoord.latitude demoCoord.longitude
          demoPoi.coordinates.latitude demoPoi.coordinates.longitude ≤
        demoPoi.geofenceRadius) :=
  ⟨geofence_iff_haversine.1 demoPoi, geofence_iff_haversine.2 demoCoord demoPoi⟩
